import Mathlib

/-
  Verification development for the Monitor repository (metric registry and
  sampling scheduler).

  Shallow embedding notes:
  * Prometheus gauge storage is modelled as an association list from metric
    name to the last written numeric value; an absent key is an "unset" slot.
  * C doubles carry only sign checks and sentinel values in the code under
    study, so sampled values are modelled as Int (the error sentinel
    RETURN_ERROR is -1, exactly as in metrics.h).
  * unsigned long long fields are modelled as Nat; the C conversion of the
    int -1 into unsigned long long is modelled by reduction modulo 2 ^ 64.
  * Each update function from expose_metrics.c becomes a state transformer
    on the slot map; the result of the underlying sampler (metrics.c) is an
    input, supplied through a SamplerEnv record, one field per sampler
    output.  A failing sampler is represented by the sentinel value that the
    corresponding metrics.c function returns on its failure path.
  * The mutex merely brackets each gauge write in the C code; its
    acquisition does not change the sequential data flow embedded here.
-/

namespace Monitor

/-- Tag for the update function stored in a catalog entry
    (the fourth field of MetricInfo in expose_metrics.h). -/
inductive UpdateFn where
  | networkTraffic
  | diskStats
  | memoryMetrics
  | contextSwitches
  | cpuGauge
  | memoryGauge
  | diskGauge
  | runningProcesses
  | cpuTemperature
  | batteryVoltage
  | batteryCurrent
  | cpuFrequency
  | cpuFanSpeed
  | gpuFanSpeed
  | processStates
  deriving DecidableEq, Repr

/-- MetricInfo from expose_metrics.h: name, description, and the update
    function reference (the gauge slot pointer is represented by the name
    itself, which keys the slot map). -/
structure MetricInfo where
  name : String
  description : String
  update_function : UpdateFn
  deriving DecidableEq, Repr

/-- The all_metrics catalog from expose_metrics.c, in declaration order.
    The C array additionally ends with a NULL sentinel entry; the Lean list
    simply ends. -/
def all_metrics : List MetricInfo := [
  ⟨"rx_bytes_total", "Total received bytes", .networkTraffic⟩,
  ⟨"tx_bytes_total", "Total transmitted bytes", .networkTraffic⟩,
  ⟨"rx_errors_total", "Total receive errors", .networkTraffic⟩,
  ⟨"tx_errors_total", "Total transmit errors", .networkTraffic⟩,
  ⟨"dropped_packets_total", "Total dropped packets", .networkTraffic⟩,
  ⟨"io_time_ms", "Time spent on I/O in milliseconds", .diskStats⟩,
  ⟨"writes_completed_total", "Total writes completed", .diskStats⟩,
  ⟨"reads_completed_total", "Total reads completed", .diskStats⟩,
  ⟨"total_memory_mb", "Total memory in MB", .memoryMetrics⟩,
  ⟨"used_memory_mb", "Used memory in MB", .memoryMetrics⟩,
  ⟨"available_memory_mb", "Available memory in MB", .memoryMetrics⟩,
  ⟨"context_switches", "Context switches", .contextSwitches⟩,
  ⟨"cpu_usage_percentage", "CPU usage in percentage", .cpuGauge⟩,
  ⟨"memory_usage_percentage", "Memory usage in percentage", .memoryGauge⟩,
  ⟨"disk_usage_percentage", "Disk usage in percentage", .diskGauge⟩,
  ⟨"running_processes_total", "Total running processes", .runningProcesses⟩,
  ⟨"cpu_temperature_celsius", "CPU temperature in Celsius", .cpuTemperature⟩,
  ⟨"battery_voltage_volts", "Battery voltage in volts", .batteryVoltage⟩,
  ⟨"battery_current_amperes", "Battery current in amperes", .batteryCurrent⟩,
  ⟨"cpu_frequency_megahertz", "CPU frequency in MHz", .cpuFrequency⟩,
  ⟨"cpu_fan_speed_rpm", "CPU fan speed in RPM", .cpuFanSpeed⟩,
  ⟨"gpu_fan_speed_rpm", "GPU fan speed in RPM", .gpuFanSpeed⟩,
  ⟨"total_processes", "Total number of processes", .processStates⟩,
  ⟨"suspended_processes", "Suspended processes", .processStates⟩,
  ⟨"ready_processes", "Ready processes", .processStates⟩,
  ⟨"blocked_processes", "Blocked processes", .processStates⟩]

/-- The linear catalog scan with strcmp performed by init_metrics and by
    start_metrics_monitoring. -/
def catalogLookup (n : String) : Option MetricInfo :=
  all_metrics.find? (fun m => m.name == n)

/-- Gauge storage: association list from metric name to last written value.
    An absent name is an unset slot. -/
abbrev Slots := List (String × Int)

/-- prom_gauge_set on the slot map: replaces any previous binding. -/
def setSlot (s : Slots) (n : String) (v : Int) : Slots :=
  (n, v) :: s.filter (fun p => !(p.1 == n))

/-- Reading one gauge slot; none means the slot is unset. -/
def getSlot (s : Slots) (n : String) : Option Int :=
  (s.find? (fun p => p.1 == n)).map (fun p => p.2)

/-- RETURN_ERROR from metrics.h. -/
def RETURN_ERROR : Int := -1

/-- C conversion of a signed value into unsigned long long. -/
def ullong (x : Int) : Nat := (x % (2 ^ 64 : Int)).toNat

/-- DiskStats from metrics.h; all three fields are unsigned long long. -/
structure DiskStats where
  io_time : Nat
  writes_completed : Nat
  reads_completed : Nat
  deriving DecidableEq, Repr

/-- NetworkStats from metrics.h; all fields are unsigned long long. -/
structure NetworkStats where
  rx_bytes : Nat
  tx_bytes : Nat
  rx_errors : Nat
  tx_errors : Nat
  dropped_packets : Nat
  deriving DecidableEq, Repr

/-- The struct get_disk_stats returns when fopen on /proc/diskstats fails:
    (DiskStats){RETURN_ERROR, RETURN_ERROR, RETURN_ERROR}, with the int -1
    converted into each unsigned long long field. -/
def disk_stats_error_result : DiskStats :=
  ⟨ullong RETURN_ERROR, ullong RETURN_ERROR, ullong RETURN_ERROR⟩

/-- The struct get_network_traffic returns when fopen on /proc/net/dev
    fails. -/
def network_error_result : NetworkStats :=
  ⟨ullong RETURN_ERROR, ullong RETURN_ERROR, ullong RETURN_ERROR,
   ullong RETURN_ERROR, ullong RETURN_ERROR⟩

/-- One cycle's sampler outcomes, one field per metrics.c sampler output.
    A failing sampler is represented by the sentinel its failure path
    returns (-1 for the double and int valued samplers; none for
    update_running_processes_gauge's early return when /proc/stat cannot be
    opened). -/
structure SamplerEnv where
  cpu_usage : Int
  memory_usage : Int
  disk_usage : Int
  cpu_temperature : Int
  battery_voltage : Int
  battery_current : Int
  cpu_frequency : Int
  cpu_fan_speed : Int
  gpu_fan_speed : Int
  running_procs : Option Nat
  proc_total : Int
  proc_suspended : Int
  proc_ready : Int
  proc_blocked : Int
  total_memory : Int
  used_memory : Int
  available_memory : Int
  context_switches : Int
  disk : DiskStats
  net : NetworkStats
  deriving DecidableEq, Repr

/-- update_gauge from expose_metrics.c: lock, prom_gauge_set, unlock.  The
    mutex bracket does not change the sequential data flow, so the model is
    the slot write itself. -/
def update_gauge (s : Slots) (n : String) (v : Int) : Slots :=
  setSlot s n v

/-- update_cpu_gauge: writes only when get_cpu_usage returned a value
    greater than or equal to 0, otherwise only logs to stderr. -/
def update_cpu_gauge (env : SamplerEnv) (s : Slots) : Slots :=
  if 0 ≤ env.cpu_usage then update_gauge s "cpu_usage_percentage" env.cpu_usage else s

/-- update_memory_gauge: guarded like update_cpu_gauge. -/
def update_memory_gauge (env : SamplerEnv) (s : Slots) : Slots :=
  if 0 ≤ env.memory_usage then update_gauge s "memory_usage_percentage" env.memory_usage else s

/-- update_disk_gauge: guarded. -/
def update_disk_gauge (env : SamplerEnv) (s : Slots) : Slots :=
  if 0 ≤ env.disk_usage then update_gauge s "disk_usage_percentage" env.disk_usage else s

/-- update_cpu_temperature: guarded. -/
def update_cpu_temperature (env : SamplerEnv) (s : Slots) : Slots :=
  if 0 ≤ env.cpu_temperature then update_gauge s "cpu_temperature_celsius" env.cpu_temperature else s

/-- update_battery_voltage: guarded. -/
def update_battery_voltage (env : SamplerEnv) (s : Slots) : Slots :=
  if 0 ≤ env.battery_voltage then update_gauge s "battery_voltage_volts" env.battery_voltage else s

/-- update_battery_current: guarded. -/
def update_battery_current (env : SamplerEnv) (s : Slots) : Slots :=
  if 0 ≤ env.battery_current then update_gauge s "battery_current_amperes" env.battery_current else s

/-- update_cpu_frequency: guarded. -/
def update_cpu_frequency (env : SamplerEnv) (s : Slots) : Slots :=
  if 0 ≤ env.cpu_frequency then update_gauge s "cpu_frequency_megahertz" env.cpu_frequency else s

/-- update_cpu_fan_speed: guarded. -/
def update_cpu_fan_speed (env : SamplerEnv) (s : Slots) : Slots :=
  if 0 ≤ env.cpu_fan_speed then update_gauge s "cpu_fan_speed_rpm" env.cpu_fan_speed else s

/-- update_gpu_fan_speed: guarded. -/
def update_gpu_fan_speed (env : SamplerEnv) (s : Slots) : Slots :=
  if 0 ≤ env.gpu_fan_speed then update_gauge s "gpu_fan_speed_rpm" env.gpu_fan_speed else s

/-- update_running_processes_gauge: returns without writing when fopen on
    /proc/stat fails (running_procs = none); otherwise writes the parsed
    count (0 when the procs_running line is missing) unconditionally. -/
def update_running_processes_gauge (env : SamplerEnv) (s : Slots) : Slots :=
  match env.running_procs with
  | none => s
  | some v => update_gauge s "running_processes_total" (Int.ofNat v)

/-- update_process_states_gauge: four prom_gauge_set calls inside one
    lock/unlock bracket, written unconditionally in this order. -/
def update_process_states_gauge (env : SamplerEnv) (s : Slots) : Slots :=
  setSlot (setSlot (setSlot (setSlot s "total_processes" env.proc_total)
    "suspended_processes" env.proc_suspended) "ready_processes" env.proc_ready)
    "blocked_processes" env.proc_blocked

/-- update_memory_metrics: three unconditional update_gauge calls; the
    sampler results are written even when they are the -1 error sentinel. -/
def update_memory_metrics (env : SamplerEnv) (s : Slots) : Slots :=
  update_gauge (update_gauge (update_gauge s "total_memory_mb" env.total_memory)
    "used_memory_mb" env.used_memory) "available_memory_mb" env.available_memory

/-- update_network_traffic_metric: five unconditional update_gauge calls
    with the NetworkStats fields cast to double. -/
def update_network_traffic_metric (env : SamplerEnv) (s : Slots) : Slots :=
  update_gauge (update_gauge (update_gauge (update_gauge (update_gauge s
    "rx_bytes_total" (Int.ofNat env.net.rx_bytes))
    "tx_bytes_total" (Int.ofNat env.net.tx_bytes))
    "rx_errors_total" (Int.ofNat env.net.rx_errors))
    "tx_errors_total" (Int.ofNat env.net.tx_errors))
    "dropped_packets_total" (Int.ofNat env.net.dropped_packets)

/-- update_context_switches_metric: one unconditional update_gauge call
    with the int result of get_context_switches (which is RETURN_ERROR = -1
    when /proc/stat cannot be opened). -/
def update_context_switches_metric (env : SamplerEnv) (s : Slots) : Slots :=
  update_gauge s "context_switches" env.context_switches

/-- update_disk_stats_metrics: the source guards the three writes with
    (stats.io_time >= 0), but io_time is unsigned long long, so the C
    comparison is performed on unsigned operands; the model mirrors this by
    comparing over Nat. -/
def update_disk_stats_metrics (env : SamplerEnv) (s : Slots) : Slots :=
  if 0 ≤ env.disk.io_time then
    update_gauge (update_gauge (update_gauge s
      "io_time_ms" (Int.ofNat env.disk.io_time))
      "writes_completed_total" (Int.ofNat env.disk.writes_completed))
      "reads_completed_total" (Int.ofNat env.disk.reads_completed)
  else s

/-- Dispatch from the catalog's update-function pointer to its semantics. -/
def applyUpdate (env : SamplerEnv) : UpdateFn → Slots → Slots
  | .networkTraffic => update_network_traffic_metric env
  | .diskStats => update_disk_stats_metrics env
  | .memoryMetrics => update_memory_metrics env
  | .contextSwitches => update_context_switches_metric env
  | .cpuGauge => update_cpu_gauge env
  | .memoryGauge => update_memory_gauge env
  | .diskGauge => update_disk_gauge env
  | .runningProcesses => update_running_processes_gauge env
  | .cpuTemperature => update_cpu_temperature env
  | .batteryVoltage => update_battery_voltage env
  | .batteryCurrent => update_battery_current env
  | .cpuFrequency => update_cpu_frequency env
  | .cpuFanSpeed => update_cpu_fan_speed env
  | .gpuFanSpeed => update_gpu_fan_speed env
  | .processStates => update_process_states_gauge env

/-- One iteration of the monitoring loop body in start_metrics_monitoring:
    for i in 0..num_metrics, call update_functions[i]().  Besides the
    resulting slots, the model returns the list of update functions that
    were invoked during the cycle, in order. -/
def runCycle (env : SamplerEnv) (active : List UpdateFn) (s : Slots) :
    Slots × List UpdateFn :=
  active.foldl (fun acc fn => (applyUpdate env fn acc.1, acc.2 ++ [fn])) (s, [])

/-- init_metrics from expose_metrics.c: for each selected name, a linear
    catalog scan; on a hit the gauge is created and registered with the
    Prometheus registry; an unknown name is silently skipped here.  The
    model returns the list of registered gauge names, in selection order. -/
def init_metrics (selected : List String) : List String :=
  selected.filter (fun n => (catalogLookup n).isSome)

/-- start_metrics_monitoring from main.c: first init_metrics registers the
    gauges for every known selected name (and create_threads starts the
    HTTP exposition thread); only then the update-function table is built,
    and the first selected name without a catalog entry makes the function
    report an error status and return before the while loop.  The Bool is
    true exactly when the monitoring loop is entered. -/
def start_metrics_monitoring (selected : List String) : List String × Bool :=
  (init_metrics selected, selected.all (fun n => (catalogLookup n).isSome))

/-- keep_running from expose_metrics.c, as declared: true, and never
    assigned anywhere else in the repository. -/
def keep_running_initial : Bool := true

/-- Loop condition of the sampling loop in start_metrics_monitoring; the
    source reads while (true), taking no notice of keep_running. -/
def scheduler_loop_condition (keep_running : Bool) : Bool :=
  true

/-- Loop condition of the HTTP exposition loop in expose_metrics; the
    source reads while (keep_running). -/
def expose_metrics_loop_condition (keep_running : Bool) : Bool :=
  keep_running

/-- isspace over the C locale, as used by trim_whitespace in main.c. -/
def is_c_space (c : Char) : Bool :=
  c == ' ' || c == '\t' || c == '\n' || c == '\x0b' || c == '\x0c' || c == '\r'

/-- trim_whitespace from main.c on a character list: drop leading isspace
    characters, then trailing ones. -/
def trim_chars (t : List Char) : List Char :=
  ((t.dropWhile is_c_space).reverse.dropWhile is_c_space).reverse

/-- Comma splitting underlying strtok(input, ","): raw segments between
    commas, accumulator-reversed. -/
def splitCommaAux : List Char → List Char → List (List Char)
  | [], cur => [cur.reverse]
  | c :: rest, cur =>
    if c == ',' then cur.reverse :: splitCommaAux rest []
    else splitCommaAux rest (c :: cur)

/-- The token sequence strtok(input, ",") produces: the comma-separated
    segments with empty segments skipped (strtok treats runs of delimiters
    as one and never yields an empty token). -/
def strtok_fields (input : String) : List (List Char) :=
  (splitCommaAux input.data []).filter (fun t => !t.isEmpty)

/-- MAX_METRICS from main.c. -/
def MAX_METRICS : Nat := 10

/-- parse_metrics from main.c: takes strtok tokens while count is below
    max_metrics, trims each, and stores it; tokens past the limit are
    dropped without any report, and the function has no failure path. -/
def parse_metrics (input : String) (max_metrics : Nat) : List String :=
  ((strtok_fields input).take max_metrics).map (fun t => String.mk (trim_chars t))

/-- show_available_metrics from expose_metrics.c writes one line per
    catalog entry to /tmp/monitor_metrics via fprintf(file, "Metric: %s\n",
    info->name); only the name field is printed. -/
def show_available_metrics_output : List String :=
  all_metrics.map (fun m => "Metric: " ++ m.name ++ "\n")

/-- Observable outcome of one run of start_monitoring_from_fifo: the gauge
    names registered with the publication surface, whether the sampling
    loop was entered, and the lines written to the enumeration sink. -/
structure RunResult where
  registered : List String
  scheduler_started : Bool
  sink_lines : List String
  deriving DecidableEq, Repr

/-- start_monitoring_from_fifo from main.c, after the FIFO message has been
    read into a buffer: parse up to MAX_METRICS names; if the first parsed
    name is the sentinel "1", call show_available_metrics and return
    without registering anything; if nothing was parsed, do nothing; else
    call start_metrics_monitoring. -/
def start_monitoring_from_fifo (msg : String) : RunResult :=
  if (parse_metrics msg MAX_METRICS).head? = some "1" then
    ⟨[], false, show_available_metrics_output⟩
  else if parse_metrics msg MAX_METRICS = [] then
    ⟨[], false, []⟩
  else
    ⟨(start_metrics_monitoring (parse_metrics msg MAX_METRICS)).1,
     (start_metrics_monitoring (parse_metrics msg MAX_METRICS)).2, []⟩

/-- Process state relevant to teardown: whether pthread_mutex_destroy has
    been invoked on the static mutex, and the gauge names still registered
    with the publication surface. -/
structure TeardownState where
  mutex_destroyed : Bool
  registered : List String
  deriving DecidableEq, Repr

/-- destroy_mutex from expose_metrics.c: the body is exactly one call,
    pthread_mutex_destroy(lock); no gauge storage is touched and nothing is
    unregistered from the Prometheus registry. -/
def destroy_mutex (s : TeardownState) : TeardownState :=
  { s with mutex_destroyed := true }

/-- Needle prefix-matches hay. -/
def charsAgree : List Char → List Char → Bool
  | [], _ => true
  | _ :: _, [] => false
  | a :: as, b :: bs => a == b && charsAgree as bs

/-- Needle occurs contiguously somewhere in hay. -/
def occursIn (needle : List Char) : List Char → Bool
  | [] => charsAgree needle []
  | c :: rest => charsAgree needle (c :: rest) || occursIn needle rest

/-- A cycle in which every sampler fails: each sampler's own failure path
    sentinel from metrics.c. -/
def failEnv : SamplerEnv :=
  { cpu_usage := RETURN_ERROR
    memory_usage := RETURN_ERROR
    disk_usage := RETURN_ERROR
    cpu_temperature := RETURN_ERROR
    battery_voltage := RETURN_ERROR
    battery_current := RETURN_ERROR
    cpu_frequency := RETURN_ERROR
    cpu_fan_speed := RETURN_ERROR
    gpu_fan_speed := RETURN_ERROR
    running_procs := none
    proc_total := 0
    proc_suspended := 0
    proc_ready := 0
    proc_blocked := 0
    total_memory := RETURN_ERROR
    used_memory := RETURN_ERROR
    available_memory := RETURN_ERROR
    context_switches := RETURN_ERROR
    disk := disk_stats_error_result
    net := network_error_result }

/-- A cycle in which the CPU sampler fails while the memory-percentage
    sampler returns 42. -/
def mixedEnv : SamplerEnv :=
  { failEnv with cpu_usage := -1, memory_usage := 42 }

theorem getSlot_setSlot_same (s : Slots) (n : String) (v : Int) :
    getSlot (setSlot s n v) n = some v := by
  simp [getSlot, setSlot, List.find?_cons_of_pos]

theorem find_slot_filter (m n : String) (h : n ≠ m) (s : Slots) :
    (s.filter (fun p => !(p.1 == m))).find? (fun p => p.1 == n)
      = s.find? (fun p => p.1 == n) := by
  induction s with
  | nil => rfl
  | cons a t ih =>
    by_cases hm : a.1 = m
    · have hqa : (a.1 == m) = true := beq_iff_eq.mpr hm
      have hpa : (a.1 == n) = false :=
        beq_eq_false_iff_ne.mpr (by rw [hm]; exact Ne.symm h)
      simp [List.filter_cons, List.find?_cons, hqa, hpa, ih]
    · have hqa : (a.1 == m) = false := beq_eq_false_iff_ne.mpr hm
      by_cases hn : a.1 = n
      · have hpa : (a.1 == n) = true := beq_iff_eq.mpr hn
        simp [List.filter_cons, List.find?_cons, hqa, hpa]
      · have hpa : (a.1 == n) = false := beq_eq_false_iff_ne.mpr hn
        simp [List.filter_cons, List.find?_cons, hqa, hpa, ih]

theorem getSlot_setSlot_ne (s : Slots) (m n : String) (v : Int) (h : n ≠ m) :
    getSlot (setSlot s m v) n = getSlot s n := by
  simp only [getSlot, setSlot]
  rw [List.find?_cons_of_neg _ (by simp only [beq_iff_eq]; exact Ne.symm h),
    find_slot_filter m n h s]

theorem runCycle_log_aux (env : SamplerEnv) :
    ∀ (active : List UpdateFn) (s : Slots) (log : List UpdateFn),
      List.foldl (fun acc fn => (applyUpdate env fn acc.1, acc.2 ++ [fn])) (s, log) active
        = (List.foldl (fun st fn => applyUpdate env fn st) s active, log ++ active) := by
  intro active
  induction active with
  | nil => intro s log; simp
  | cons a l ih =>
    intro s log
    simp only [List.foldl_cons]
    rw [ih]
    simp

/-- C1 counterexample: on the selection [cpu_usage_percentage,
    bogus_metric], which contains an unknown name, activation does fail
    (the monitoring loop is never entered) but one gauge, for the valid
    name cpu_usage_percentage, has been registered by init_metrics and is
    observable via the publication surface (the HTTP exposition thread was
    started by create_threads before the unknown-name check), refuting the
    claim that zero metrics are registered. -/
theorem c1_counterexample :
    (start_metrics_monitoring ["cpu_usage_percentage", "bogus_metric"]).2 = false ∧
    (start_metrics_monitoring ["cpu_usage_percentage", "bogus_metric"]).1
      = ["cpu_usage_percentage"] := by decide

/-- C1 amended: for every selection list containing at least one unknown
    name, the scheduler loop is never entered, but the gauges for exactly
    the known names of the list are nevertheless registered (partial
    registration, because init_metrics runs before the unknown-name
    check in start_metrics_monitoring). -/
theorem c1_amended (selected : List String) (n : String)
    (hmem : n ∈ selected) (hunk : catalogLookup n = none) :
    (start_metrics_monitoring selected).2 = false ∧
    (start_metrics_monitoring selected).1
      = selected.filter (fun m => (catalogLookup m).isSome) := by
  refine ⟨?_, rfl⟩
  show (selected.all fun m => (catalogLookup m).isSome) = false
  cases hb : selected.all fun m => (catalogLookup m).isSome with
  | false => rfl
  | true =>
    have h3 := List.all_eq_true.mp hb n hmem
    rw [hunk] at h3
    exact absurd h3 (by simp)

/-- C1 witness: the amended theorem applied at the concrete selection
    [memory_usage_percentage, bogus_metric]. -/
theorem c1_witness :
    (start_metrics_monitoring ["memory_usage_percentage", "bogus_metric"]).2 = false ∧
    (start_metrics_monitoring ["memory_usage_percentage", "bogus_metric"]).1
      = ["memory_usage_percentage", "bogus_metric"].filter
          (fun m => (catalogLookup m).isSome) :=
  c1_amended _ "bogus_metric" (by decide) (by decide)

/-- C2 counterexample: in a cycle where get_context_switches fails (its
    /proc/stat fopen failure returns RETURN_ERROR = -1) the
    context_switches slot, unset before the cycle, is written with the
    error sentinel -1; likewise update_memory_metrics publishes -1 for
    total_memory_mb when get_total_memory fails.  This refutes the claim
    that a failed sampler invocation never writes the slot and that an
    error sentinel is never published. -/
theorem c2_counterexample :
    getSlot ([] : Slots) "context_switches" = none ∧
    getSlot (update_context_switches_metric failEnv []) "context_switches"
      = some RETURN_ERROR ∧
    getSlot (update_memory_metrics failEnv []) "total_memory_mb"
      = some RETURN_ERROR := by decide

/-- C2 amended: the nine update functions that guard on a nonnegative
    sampler result (cpu/memory/disk percentage, temperature, battery
    voltage and current, frequency, both fan speeds) leave the slot map
    untouched when their sampler fails, so those slots keep the previous
    value or stay unset; but update_context_switches_metric,
    update_memory_metrics, update_network_traffic_metric and
    update_disk_stats_metrics write every one of their slots with the
    sampler result unconditionally, error sentinel included (-1 for the
    signed samplers, 2 ^ 64 - 1 for the unsigned stats, as the witness
    instantiates). -/
theorem c2_amended (env : SamplerEnv) (s : Slots)
    (h1 : env.cpu_usage < 0) (h2 : env.memory_usage < 0) (h3 : env.disk_usage < 0)
    (h4 : env.cpu_temperature < 0) (h5 : env.battery_voltage < 0)
    (h6 : env.battery_current < 0) (h7 : env.cpu_frequency < 0)
    (h8 : env.cpu_fan_speed < 0) (h9 : env.gpu_fan_speed < 0) :
    update_cpu_gauge env s = s ∧
    update_memory_gauge env s = s ∧
    update_disk_gauge env s = s ∧
    update_cpu_temperature env s = s ∧
    update_battery_voltage env s = s ∧
    update_battery_current env s = s ∧
    update_cpu_frequency env s = s ∧
    update_cpu_fan_speed env s = s ∧
    update_gpu_fan_speed env s = s ∧
    getSlot (update_context_switches_metric env s) "context_switches"
      = some env.context_switches ∧
    getSlot (update_memory_metrics env s) "total_memory_mb"
      = some env.total_memory ∧
    getSlot (update_memory_metrics env s) "used_memory_mb"
      = some env.used_memory ∧
    getSlot (update_memory_metrics env s) "available_memory_mb"
      = some env.available_memory ∧
    getSlot (update_network_traffic_metric env s) "rx_bytes_total"
      = some (Int.ofNat env.net.rx_bytes) ∧
    getSlot (update_network_traffic_metric env s) "tx_bytes_total"
      = some (Int.ofNat env.net.tx_bytes) ∧
    getSlot (update_network_traffic_metric env s) "rx_errors_total"
      = some (Int.ofNat env.net.rx_errors) ∧
    getSlot (update_network_traffic_metric env s) "tx_errors_total"
      = some (Int.ofNat env.net.tx_errors) ∧
    getSlot (update_network_traffic_metric env s) "dropped_packets_total"
      = some (Int.ofNat env.net.dropped_packets) ∧
    getSlot (update_disk_stats_metrics env s) "io_time_ms"
      = some (Int.ofNat env.disk.io_time) ∧
    getSlot (update_disk_stats_metrics env s) "writes_completed_total"
      = some (Int.ofNat env.disk.writes_completed) ∧
    getSlot (update_disk_stats_metrics env s) "reads_completed_total"
      = some (Int.ofNat env.disk.reads_completed) := by
  refine ⟨?_, ?_, ?_, ?_, ?_, ?_, ?_, ?_, ?_, ?_, ?_, ?_, ?_, ?_, ?_, ?_, ?_, ?_,
    ?_, ?_, ?_⟩
  · simp only [update_cpu_gauge]
    rw [if_neg (not_le.mpr h1)]
  · simp only [update_memory_gauge]
    rw [if_neg (not_le.mpr h2)]
  · simp only [update_disk_gauge]
    rw [if_neg (not_le.mpr h3)]
  · simp only [update_cpu_temperature]
    rw [if_neg (not_le.mpr h4)]
  · simp only [update_battery_voltage]
    rw [if_neg (not_le.mpr h5)]
  · simp only [update_battery_current]
    rw [if_neg (not_le.mpr h6)]
  · simp only [update_cpu_frequency]
    rw [if_neg (not_le.mpr h7)]
  · simp only [update_cpu_fan_speed]
    rw [if_neg (not_le.mpr h8)]
  · simp only [update_gpu_fan_speed]
    rw [if_neg (not_le.mpr h9)]
  · exact getSlot_setSlot_same _ _ _
  · simp only [update_memory_metrics, update_gauge]
    rw [getSlot_setSlot_ne _ _ _ _ (by decide), getSlot_setSlot_ne _ _ _ _ (by decide)]
    exact getSlot_setSlot_same _ _ _
  · simp only [update_memory_metrics, update_gauge]
    rw [getSlot_setSlot_ne _ _ _ _ (by decide)]
    exact getSlot_setSlot_same _ _ _
  · exact getSlot_setSlot_same _ _ _
  · simp only [update_network_traffic_metric, update_gauge]
    rw [getSlot_setSlot_ne _ _ _ _ (by decide), getSlot_setSlot_ne _ _ _ _ (by decide),
      getSlot_setSlot_ne _ _ _ _ (by decide), getSlot_setSlot_ne _ _ _ _ (by decide)]
    exact getSlot_setSlot_same _ _ _
  · simp only [update_network_traffic_metric, update_gauge]
    rw [getSlot_setSlot_ne _ _ _ _ (by decide), getSlot_setSlot_ne _ _ _ _ (by decide),
      getSlot_setSlot_ne _ _ _ _ (by decide)]
    exact getSlot_setSlot_same _ _ _
  · simp only [update_network_traffic_metric, update_gauge]
    rw [getSlot_setSlot_ne _ _ _ _ (by decide), getSlot_setSlot_ne _ _ _ _ (by decide)]
    exact getSlot_setSlot_same _ _ _
  · simp only [update_network_traffic_metric, update_gauge]
    rw [getSlot_setSlot_ne _ _ _ _ (by decide)]
    exact getSlot_setSlot_same _ _ _
  · exact getSlot_setSlot_same _ _ _
  · simp only [update_disk_stats_metrics, update_gauge]
    rw [if_pos (Nat.zero_le _)]
    rw [getSlot_setSlot_ne _ _ _ _ (by decide), getSlot_setSlot_ne _ _ _ _ (by decide)]
    exact getSlot_setSlot_same _ _ _
  · simp only [update_disk_stats_metrics, update_gauge]
    rw [if_pos (Nat.zero_le _)]
    rw [getSlot_setSlot_ne _ _ _ _ (by decide)]
    exact getSlot_setSlot_same _ _ _
  · simp only [update_disk_stats_metrics, update_gauge]
    rw [if_pos (Nat.zero_le _)]
    exact getSlot_setSlot_same _ _ _

/-- C2 witness: the amended theorem applied at the all-failing cycle
    failEnv on empty slots; every guarded updater leaves the slots empty,
    while the unconditional updaters publish the sentinels -1 and
    2 ^ 64 - 1. -/
theorem c2_witness :
    update_cpu_gauge failEnv [] = [] ∧
    update_memory_gauge failEnv [] = [] ∧
    update_disk_gauge failEnv [] = [] ∧
    update_cpu_temperature failEnv [] = [] ∧
    update_battery_voltage failEnv [] = [] ∧
    update_battery_current failEnv [] = [] ∧
    update_cpu_frequency failEnv [] = [] ∧
    update_cpu_fan_speed failEnv [] = [] ∧
    update_gpu_fan_speed failEnv [] = [] ∧
    getSlot (update_context_switches_metric failEnv []) "context_switches"
      = some (-1) ∧
    getSlot (update_memory_metrics failEnv []) "total_memory_mb" = some (-1) ∧
    getSlot (update_memory_metrics failEnv []) "used_memory_mb" = some (-1) ∧
    getSlot (update_memory_metrics failEnv []) "available_memory_mb" = some (-1) ∧
    getSlot (update_network_traffic_metric failEnv []) "rx_bytes_total"
      = some (Int.ofNat (2 ^ 64 - 1)) ∧
    getSlot (update_network_traffic_metric failEnv []) "tx_bytes_total"
      = some (Int.ofNat (2 ^ 64 - 1)) ∧
    getSlot (update_network_traffic_metric failEnv []) "rx_errors_total"
      = some (Int.ofNat (2 ^ 64 - 1)) ∧
    getSlot (update_network_traffic_metric failEnv []) "tx_errors_total"
      = some (Int.ofNat (2 ^ 64 - 1)) ∧
    getSlot (update_network_traffic_metric failEnv []) "dropped_packets_total"
      = some (Int.ofNat (2 ^ 64 - 1)) ∧
    getSlot (update_disk_stats_metrics failEnv []) "io_time_ms"
      = some (Int.ofNat (2 ^ 64 - 1)) ∧
    getSlot (update_disk_stats_metrics failEnv []) "writes_completed_total"
      = some (Int.ofNat (2 ^ 64 - 1)) ∧
    getSlot (update_disk_stats_metrics failEnv []) "reads_completed_total"
      = some (Int.ofNat (2 ^ 64 - 1)) :=
  c2_amended failEnv [] (by decide) (by decide) (by decide) (by decide) (by decide)
    (by decide) (by decide) (by decide) (by decide)

/-- C3: for every assignment of sampler outcomes (env ranges over all
    outcomes, failing ones included) and every active set, the cycle loop
    invokes the update function of every active metric, in order — the
    invocation log equals the active list, so no sampler failure aborts
    the cycle for the remaining metrics; concretely, in a cycle where the
    CPU sampler fails and the memory sampler returns 42, the memory slot
    is updated while the CPU slot stays unset. -/
theorem c3_cycle_isolated (env : SamplerEnv) (active : List UpdateFn) (s : Slots) :
    (runCycle env active s).2 = active ∧
    (runCycle env active s).1
      = active.foldl (fun st fn => applyUpdate env fn st) s ∧
    getSlot (runCycle mixedEnv [.cpuGauge, .memoryGauge] []).1
        "memory_usage_percentage" = some 42 ∧
    getSlot (runCycle mixedEnv [.cpuGauge, .memoryGauge] []).1
        "cpu_usage_percentage" = none := by
  have h := runCycle_log_aux env active s []
  refine ⟨?_, ?_, by decide, by decide⟩
  · unfold runCycle
    rw [h]
    simp
  · unfold runCycle
    rw [h]

/-- C4 (code bug): with the stop flag delivered (keep_running = false),
    the sampling loop of start_metrics_monitoring still starts another
    cycle, because its condition is the constant true; only the HTTP
    exposition loop in expose_metrics tests keep_running, and the flag is
    declared true and never assigned false anywhere in the repository. -/
theorem c4_loop_ignores_stop :
    scheduler_loop_condition false = true ∧
    expose_metrics_loop_condition false = false ∧
    keep_running_initial = true :=
  ⟨rfl, rfl, rfl⟩

/-- C5 counterexample: on the sentinel message "1" the first sink line is
    exactly the string made of the literal prefix and the first catalog
    entry's name, and the first entry's description, Total received bytes,
    occurs in none of the emitted lines — refuting the part of the claim
    that says each entry's description is written. -/
theorem c5_counterexample :
    (start_monitoring_from_fifo "1").sink_lines.head?
      = some "Metric: rx_bytes_total\n" ∧
    (all_metrics.head?.map (fun m => m.description)) = some "Total received bytes" ∧
    (start_monitoring_from_fifo "1").sink_lines.all
      (fun l => !occursIn "Total received bytes".data l.data) = true := by decide

/-- C5 amended: when the first parsed field of the selection message is the
    sentinel "1", no gauges are registered and the scheduler never starts,
    and the enumeration sink receives exactly one line per catalog entry
    (exactly length-of-catalog lines), each consisting of the entry's name
    only — the description is not written. -/
theorem c5_amended (msg : String)
    (h : (parse_metrics msg MAX_METRICS).head? = some "1") :
    start_monitoring_from_fifo msg = ⟨[], false, show_available_metrics_output⟩ ∧
    show_available_metrics_output.length = all_metrics.length ∧
    show_available_metrics_output
      = all_metrics.map (fun m => "Metric: " ++ m.name ++ "\n") := by
  refine ⟨?_, by decide, rfl⟩
  unfold start_monitoring_from_fifo
  rw [if_pos h]

/-- C5 witness: the amended theorem applied at the concrete message "1". -/
theorem c5_witness :
    start_monitoring_from_fifo "1" = ⟨[], false, show_available_metrics_output⟩ ∧
    show_available_metrics_output.length = all_metrics.length ∧
    show_available_metrics_output
      = all_metrics.map (fun m => "Metric: " ++ m.name ++ "\n") :=
  c5_amended "1" (by decide)

/-- C7: no two entries of the all_metrics catalog share a name. -/
theorem c7_names_unique : (all_metrics.map (fun m => m.name)).Nodup := by decide

/-- C8 counterexample: from a state in which the gauge for
    cpu_usage_percentage is registered, destroy_mutex (the repository's
    whole teardown) leaves that gauge registered: it releases only the
    mutex, refuting the part of the claim that says teardown releases all
    gauge storage. -/
theorem c8_counterexample :
    (destroy_mutex ⟨false, ["cpu_usage_percentage"]⟩).registered
      = ["cpu_usage_percentage"] ∧
    (destroy_mutex ⟨false, ["cpu_usage_percentage"]⟩).mutex_destroyed = true := by
  decide

/-- C8 amended: teardown releases only the mutex resource and leaves gauge
    storage registered; repeating it performs the same single
    mutex-destroy state change (idempotent at the level of the
    repository's own state). -/
theorem c8_amended (s : TeardownState) :
    destroy_mutex (destroy_mutex s) = destroy_mutex s ∧
    (destroy_mutex s).registered = s.registered ∧
    (destroy_mutex s).mutex_destroyed = true :=
  ⟨rfl, rfl, rfl⟩

/-- C9: parse_metrics with the MAX_METRICS bound of 10 keeps at most the
    first ten comma-separated fields (strtok tokens), trimmed; everything
    past the tenth is dropped, and the function is total — there is no
    error path. -/
theorem c9_parse_truncates (input : String) :
    (parse_metrics input MAX_METRICS).length ≤ MAX_METRICS ∧
    parse_metrics input MAX_METRICS
      = ((strtok_fields input).map (fun t => String.mk (trim_chars t))).take
          MAX_METRICS := by
  constructor
  · simp only [parse_metrics, List.length_map, List.length_take]
    exact min_le_left _ _
  · simp only [parse_metrics, List.map_take]

/-- C10: the guard (stats.io_time >= 0) in update_disk_stats_metrics
    compares an unsigned value against zero and therefore always passes,
    so for every sampler result — the fopen-failure sentinel
    {RETURN_ERROR, RETURN_ERROR, RETURN_ERROR}, whose unsigned fields are
    2 ^ 64 - 1, included — all three disk-stat slots are written and the
    error branch is unreachable. -/
theorem c10_disk_branch (env : SamplerEnv) (s : Slots) :
    update_disk_stats_metrics env s
      = update_gauge (update_gauge (update_gauge s
          "io_time_ms" (Int.ofNat env.disk.io_time))
          "writes_completed_total" (Int.ofNat env.disk.writes_completed))
          "reads_completed_total" (Int.ofNat env.disk.reads_completed) ∧
    disk_stats_error_result.io_time = 2 ^ 64 - 1 ∧
    getSlot (update_disk_stats_metrics { failEnv with disk := disk_stats_error_result } [])
        "io_time_ms" = some (Int.ofNat (2 ^ 64 - 1)) := by
  refine ⟨?_, by decide, by decide⟩
  unfold update_disk_stats_metrics
  rw [if_pos (Nat.zero_le _)]

end Monitor
